import Mathlib

/-!
# Verification of the InkyPi school-menu and tile plugins

A shallow embedding of `src/plugins/schoolmenu/schoolmenu.py` and
`src/plugins/tile/tile.py`, with theorems checking the repository's
specification against the code.

Conventions of the embedding:
* Python `datetime.date` values are rata-die day numbers (`Nat`, day 1 =
  0001-01-01 of the proleptic Gregorian calendar, a Monday); adding
  `timedelta(days=1)` is `+ 1`; `date.today()` is an explicit parameter.
* The ISO key `date.strftime("%Y-%m-%d")` is injective on dates, so result
  dictionaries are keyed by the day number itself.
* Python `dict` (insertion ordered) is an association list in insertion order.
* The outcome of the one `requests.post` call (including exceptions raised by
  transport or JSON decoding) is an explicit `ApiResponse` parameter.
* Machine `int`s are `Int`/`Nat` (Python integers are unbounded anyway).
-/

namespace SchoolMenuPlugin

/-- Python `date.weekday()`: Monday = 0 … Sunday = 6. Day 1 (0001-01-01) is a
Monday, so the weekday of rata-die `rd` is `(rd + 6) % 7`. -/
def weekday (rd : Nat) : Nat := (rd + 6) % 7

/-- Gregorian `(year, month, day-of-month)` of a rata-die day: the standard
`civil_from_days` calendar algorithm with its input shifted by eras so every
intermediate stays non-negative (`rd + 305 = days-since-1970 + 719468`).
This backs Python's `date.year`, `date.month` and `date.day` fields. -/
def civil (rd : Nat) : Nat × Nat × Nat :=
  let z := rd + 305
  let era := z / 146097
  let doe := z % 146097
  let yoe := (doe - doe / 1460 + doe / 36524 - doe / 146096) / 365
  let doy := doe - (365 * yoe + yoe / 4 - yoe / 100)
  let mp := (5 * doy + 2) / 153
  let d := doy - (153 * mp + 2) / 5 + 1
  let m := if mp < 10 then mp + 3 else mp - 9
  (if m ≤ 2 then era * 400 + yoe + 1 else era * 400 + yoe, m, d)

/-- Python `date.year`. -/
def dateYear (rd : Nat) : Nat := (civil rd).1

/-- Python `date.month`. -/
def dateMonth (rd : Nat) : Nat := (civil rd).2.1

/-- Python `date.day` (day of month). -/
def dateDay (rd : Nat) : Nat := (civil rd).2.2

/-- `STANDARD_ITEMS` (schoolmenu.py lines 35-43): the denylist of standard
lunch items filtered from every day's menu. -/
def STANDARD_ITEMS : List String :=
  ["Garden Bar:",
   "Organic Fresh Fruits and Veggies",
   "Straus Organic 1% Milk",
   "Non-fat milk",
   "Low-fat Milk",
   "Milk",
   "Garden Bar: Fresh Fruits and Veggies"]

/-- `MAX_DAYS` (line 48). -/
def MAX_DAYS : Int := 5

/-- `MIN_DAYS` (line 49). -/
def MIN_DAYS : Int := 1

/-- `_is_valid_day_count` (lines 82-84): `MIN_DAYS <= num_days <= MAX_DAYS`. -/
def _is_valid_day_count (num_days : Int) : Bool :=
  MIN_DAYS ≤ num_days && num_days ≤ MAX_DAYS

/-- Whether `pre` is a leading segment of `l` (helper for Python's `in` on
strings). -/
def leadsList : List Char → List Char → Bool
  | [], _ => true
  | _ :: _, [] => false
  | a :: pre, b :: l => a == b && leadsList pre l

/-- Whether the character list `pat` occurs contiguously in `l`. -/
def occursIn (pat : List Char) : List Char → Bool
  | [] => leadsList pat []
  | b :: l => leadsList pat (b :: l) || occursIn pat l

/-- Python's substring test `pat in s` (always true for the empty pattern). -/
def strIn (pat s : String) : Bool := occursIn pat.data s.data

/-- Python `str.lower()` (characterwise; all strings involved are ASCII). -/
def pyLower (s : String) : String := String.mk (s.data.map Char.toLower)

/-- Python `str.strip()` with no argument: trim whitespace from both ends
(characterwise on the character list). -/
def pyStrip (s : String) : String :=
  String.mk
    ((s.data.dropWhile Char.isWhitespace).reverse.dropWhile
      Char.isWhitespace).reverse

/-- Python `str.rstrip(":")`: drop every trailing colon. -/
def pyRstripColon (s : String) : String :=
  String.mk (s.data.reverse.dropWhile (· == ':')).reverse

/-- One entry of `menu["items"]` in the GraphQL payload: `item["day"]` and
`item["product"]["name"]`, each possibly absent or null. -/
structure MenuItem where
  day : Option Nat
  product_name : Option String

/-- The `data.menu` object of the GraphQL payload: the stated month and year
plus the per-day line items. -/
structure MenuPayload where
  month : Option Nat
  year : Option Nat
  items : List MenuItem

/-- Python truthiness of an optional integer: `None` and `0` are falsy. -/
def truthyNat : Option Nat → Bool
  | none => false
  | some n => n != 0

/-- Python truthiness of an optional string: `None` and `""` are falsy. -/
def truthyStr : Option String → Bool
  | none => false
  | some s => s != ""

/-- `dict.__getitem__` / `dict.get` on the insertion-ordered association
list. -/
def dictFind : List (Nat × List String) → Nat → Option (List String)
  | [], _ => none
  | (k, v) :: rest, k' => if k = k' then some v else dictFind rest k'

/-- Python `day in daily_items`. -/
def dictMem (m : List (Nat × List String)) (k : Nat) : Bool :=
  (dictFind m k).isSome

/-- `daily_items[day] = []` for a fresh key: a `dict` appends new keys at the
end and leaves existing keys in place. -/
def dictInsertEmpty (m : List (Nat × List String)) (k : Nat) :
    List (Nat × List String) :=
  if dictMem m k then m else m ++ [(k, [])]

/-- `daily_items[day].append(name)`: extend the value stored at `k`. -/
def dictAppendAt : List (Nat × List String) → Nat → String →
    List (Nat × List String)
  | [], _, _ => []
  | (k, v) :: rest, k', x =>
    if k = k' then (k, v ++ [x]) :: rest else (k, v) :: dictAppendAt rest k' x

/-- One iteration of the `_group_items_by_day` loop (lines 200-212): skip
falsy days and names, materialise the day's (possibly empty) entry, then
append the cleaned name (`strip()` then `rstrip(":")`) unless it is empty or
already present for that day. -/
def groupStep (daily_items : List (Nat × List String)) (item : MenuItem) :
    List (Nat × List String) :=
  match item.day, item.product_name with
  | some day, some product_name =>
    if day != 0 && product_name != "" && pyStrip product_name != "" then
      let daily' := dictInsertEmpty daily_items day
      let cleaned_name := pyRstripColon (pyStrip product_name)
      if cleaned_name != "" &&
          !((dictFind daily' day).getD []).contains cleaned_name then
        dictAppendAt daily' day cleaned_name
      else daily'
    else daily_items
  | _, _ => daily_items

/-- `_group_items_by_day` (lines 196-214): fold the per-item step over the
payload's item list, starting from the empty dictionary. -/
def _group_items_by_day (items : List MenuItem) : List (Nat × List String) :=
  items.foldl groupStep []

/-- `_filter_standard_items` (lines 285-299): keep exactly the items whose
lowercase form contains no lowercase `STANDARD_ITEMS` entry as a substring
(the source's flag-and-append loop is `List.filter` of the kept condition). -/
def _filter_standard_items (menu_items : List String) : List String :=
  menu_items.filter fun item =>
    !(STANDARD_ITEMS.any fun standard_item =>
      strIn (pyLower standard_item) (pyLower item))

/-- `_is_school_day` (lines 257-259): Monday-Friday. -/
def _is_school_day (rd : Nat) : Bool := weekday rd < 5

/-- `_is_date_in_menu_range` (lines 261-265): the date's month and year both
match the menu's stated month and year. -/
def _is_date_in_menu_range (rd : Nat) (menu_month menu_year : Nat) : Bool :=
  dateMonth rd == menu_month && dateYear rd == menu_year

/-- Termination measure helper for the date-advancing loops: how many extra
iterations the loop spends skipping the weekend from `rd` (2 from Saturday,
1 from Sunday, 0 from a school day). -/
def weekendGap (rd : Nat) : Nat :=
  if _is_school_day rd then 0 else if weekday rd == 5 then 2 else 1

/-- The loop of `_get_empty_menu_for_days` (lines 267-283): walk forward from
`current_date`, skipping weekends, emitting a placeholder entry per school
day until the requested count is collected (`remaining` counts down
`num_days - days_added`). -/
def emptyMenuLoop : (remaining : Nat) → (current_date : Nat) →
    List (Nat × List String)
  | 0, _ => []
  | n + 1, d =>
    if _is_school_day d then
      (d, ["Menu not available"]) :: emptyMenuLoop n (d + 1)
    else
      emptyMenuLoop (n + 1) (d + 1)
termination_by n d => n * 3 + weekendGap d
decreasing_by
  all_goals simp only [weekendGap, _is_school_day, weekday, beq_iff_eq,
    decide_eq_true_eq] at *
  all_goals split_ifs at * <;> omega

/-- `_get_empty_menu_for_days` (lines 267-283). -/
def _get_empty_menu_for_days (today : Nat) (num_days : Nat) :
    List (Nat × List String) :=
  emptyMenuLoop num_days today

/-- The per-school-day value of `_convert_to_date_format` (lines 233-249):
the filtered items when the date lies in the menu's month/year and has
surviving items, otherwise the "No menu available" placeholder. -/
def menuDayValue (daily_items : List (Nat × List String))
    (menu_month menu_year : Nat) (rd : Nat) : List String :=
  if _is_date_in_menu_range rd menu_month menu_year then
    match dictFind daily_items (dateDay rd) with
    | some items =>
      let filtered_items := _filter_standard_items items
      if filtered_items != [] then filtered_items else ["No menu available"]
    | none => ["No menu available"]
  else ["No menu available"]

/-- The loop of `_convert_to_date_format` (lines 228-253): same weekend
skipping walk as `emptyMenuLoop`, with the per-day menu lookup. -/
def convertLoop (daily_items : List (Nat × List String))
    (menu_month menu_year : Nat) : (remaining : Nat) → (search_date : Nat) →
    List (Nat × List String)
  | 0, _ => []
  | n + 1, d =>
    if _is_school_day d then
      (d, menuDayValue daily_items menu_month menu_year d) ::
        convertLoop daily_items menu_month menu_year n (d + 1)
    else
      convertLoop daily_items menu_month menu_year (n + 1) (d + 1)
termination_by n d => n * 3 + weekendGap d
decreasing_by
  all_goals simp only [weekendGap, _is_school_day, weekday, beq_iff_eq,
    decide_eq_true_eq] at *
  all_goals split_ifs at * <;> omega

/-- The first school day at or after `rd`: where one pass of the
weekend-skipping loops lands (a Saturday advances 2 days, a Sunday 1). -/
def skipWeekend (rd : Nat) : Nat :=
  if _is_school_day rd then rd else if weekday rd == 5 then rd + 2 else rd + 1

/-- `_convert_to_date_format` (lines 216-255). -/
def _convert_to_date_format (today : Nat)
    (daily_items : List (Nat × List String))
    (menu_month menu_year num_days : Nat) : List (Nat × List String) :=
  convertLoop daily_items menu_month menu_year num_days today

/-- `_extract_menu_dates` (lines 185-194): the stated month and year, or
`(None, None)` when either is falsy. -/
def _extract_menu_dates (menu : MenuPayload) : Option Nat × Option Nat :=
  if truthyNat menu.month && truthyNat menu.year then (menu.month, menu.year)
  else (none, none)

/-- `_parse_graphql_menu_data` (lines 160-183): fall back to the empty menu
when month or year is falsy, otherwise group and convert. (The embedding is
total, so the function's catch-all `except` has nothing further to catch.) -/
def _parse_graphql_menu_data (today : Nat) (menu : MenuPayload)
    (num_days : Nat) : List (Nat × List String) :=
  let md := _extract_menu_dates menu
  if !(truthyNat md.1 && truthyNat md.2) then
    _get_empty_menu_for_days today num_days
  else
    let daily_items := _group_items_by_day menu.items
    _convert_to_date_format today daily_items (md.1.getD 0) (md.2.getD 0)
      num_days

/-- Decoded body of the GraphQL response, as the code inspects it: an
`errors` key present, a missing/falsy `data.menu`, or the menu object. -/
inductive GraphQLBody where
  | withErrors
  | noMenu
  | menu (m : MenuPayload)

/-- Outcome of `requests.post` plus `response.json()`: an exception raised
anywhere in transport or JSON decoding, or a status code with a decoded
body. -/
inductive ApiResponse where
  | raised
  | ok (status_code : Nat) (body : GraphQLBody)

/-- `_fetch_menu_from_api` (lines 86-128): every failure branch (exception,
non-200 status, GraphQL `errors`, missing menu) returns the empty-menu
fallback; only a well-formed 200 response reaches the parser. `site_code`
is only logged by the source and affects nothing. -/
def _fetch_menu_from_api (today : Nat) (response : ApiResponse)
    (num_days : Nat) (menu_id : String) (site_code : Option String) :
    List (Nat × List String) :=
  let _ := site_code
  if menu_id = "" then
    -- `raise ValueError("Menu ID is not provided")`, caught by the except
    _get_empty_menu_for_days today num_days
  else
    match response with
    | .raised => _get_empty_menu_for_days today num_days
    | .ok status body =>
      if status != 200 then _get_empty_menu_for_days today num_days
      else
        match body with
        | .withErrors => _get_empty_menu_for_days today num_days
        | .noMenu => _get_empty_menu_for_days today num_days
        | .menu m => _parse_graphql_menu_data today m num_days

/-- `get_menu_for_days` (lines 65-80): `ValueError` for an out-of-range
`num_days`, otherwise the API path (for a truthy `menu_id`) or the
empty-menu fallback. -/
def get_menu_for_days (today : Nat) (response : ApiResponse)
    (num_days : Int) (menu_id : Option String) (site_code : Option String) :
    Except String (List (Nat × List String)) :=
  if !(_is_valid_day_count num_days) then
    .error "Number of days must be between 1 and 5"
  else if truthyStr menu_id then
    .ok (_fetch_menu_from_api today response num_days.toNat (menu_id.getD "")
      site_code)
  else
    .ok (_get_empty_menu_for_days today num_days.toNat)

/-- The failure condition of `_fetch_menu_from_api`'s guard branches: a
transport/decoding exception, a non-200 status, a GraphQL `errors` list, a
missing menu object, or a menu whose stated month or year is falsy (the
malformed payload caught inside `_parse_graphql_menu_data`). -/
def fetchFailed : ApiResponse → Bool
  | .raised => true
  | .ok status body =>
    status != 200 ||
      match body with
      | .withErrors => true
      | .noMenu => true
      | .menu m => !(truthyNat m.month && truthyNat m.year)

/-- `FONT_SIZES` (lines 27-32); the float factors as exact rationals. -/
def FONT_SIZES : List (String × ℚ) :=
  [("small", 4/5), ("normal", 1), ("large", 6/5), ("extra_large", 7/5)]

/-- The plugin settings dictionary as `_parse_settings` reads it: each
recognized key possibly absent. -/
structure SMSettings where
  menuId : Option String
  siteCode : Option String
  numDays : Option Int
  showDate : Option Bool
  customTitle : Option String
  fontSize : Option String

/-- The parsed configuration dictionary returned by `_parse_settings`. -/
structure SMConfig where
  menu_id : String
  site_code : Option String
  num_days : Int
  show_date : Bool
  custom_title : String
  font_size : String
  font_scale : ℚ

/-- `_parse_settings` (lines 401-422): defaults, `strip()`s, and the silent
clamp of an out-of-range `numDays` to 1. -/
def _parse_settings (settings : SMSettings) : SMConfig :=
  let menu_id := pyStrip (settings.menuId.getD "")
  let site_code_raw := pyStrip (settings.siteCode.getD "")
  let site_code := if site_code_raw != "" then some site_code_raw else none
  let num_days_raw := settings.numDays.getD 1
  let num_days :=
    if !(_is_valid_day_count num_days_raw) then 1 else num_days_raw
  let font_size := settings.fontSize.getD "normal"
  { menu_id := menu_id
    site_code := site_code
    num_days := num_days
    show_date := settings.showDate.getD true
    custom_title := settings.customTitle.getD "School Lunch Menu"
    font_size := font_size
    font_scale := (FONT_SIZES.lookup font_size).getD 1 }

/-- The settings-to-fetch slice of `generate_image` (lines 301-310): parse
the settings, then request the menu with the parsed values (the subsequent
HTML/CSS rendering is host-provided and out of scope). -/
def generate_image_menu_data (today : Nat) (response : ApiResponse)
    (settings : SMSettings) : Except String (List (Nat × List String)) :=
  let config := _parse_settings settings
  get_menu_for_days today response config.num_days (some config.menu_id)
    config.site_code

end SchoolMenuPlugin

/-!
## Tile plugin embedding

Conventions:
* The PIL image is modelled as the ordered list of drawing operations
  (`DrawOp`) performed on it, with a pixel-level semantics (`renderOps`)
  that tracks the provenance of each pixel; PIL itself is a host library
  and out of scope, so child bitmaps carry size, mode and an opaque tag.
* Rectangles are written in the corner coordinates the source passes to PIL
  and are interpreted half-open (`[x0, x1) × [y0, y1)`).
* `get_plugin_instance` plus the child's `generate_image`, `json.loads`
  and the font measurement `draw.textbbox` are host collaborators, passed
  in as explicit function parameters; a `ChildOutcome.error` covers both a
  missing plugin and any exception raised while resolving or rendering it.
-/

namespace TilePluginModel

/-- A child plugin's rendered bitmap: size, PIL mode, and an opaque content
tag (the pixels themselves live outside the embedding). -/
structure ChildImage where
  width : Nat
  height : Nat
  mode : String
  tag : Nat
  deriving DecidableEq

/-- A PIL fill color as the source passes it: a monochrome level, an RGB
triple, or a named/hex string handed to PIL unparsed. -/
inductive PilColor where
  | mono (v : Nat)
  | rgb (r g b : Nat)
  | named (s : String)
  deriving DecidableEq

/-- One drawing/compositing operation on the main image, in execution
order. `text` also records the measured size of its bounding box, which is
the op's region of effect. -/
inductive DrawOp where
  | newImage (mode : String) (width height : Nat) (fill : PilColor)
  | line (p q : Nat × Nat) (fill : PilColor) (lineWidth : Nat)
  | paste (img : ChildImage) (x y : Nat)
  | rect (x0 y0 x1 y1 : Nat) (fill : PilColor)
  | text (x y : Int) (text_w text_h : Nat) (content : String) (fill : PilColor)
  deriving DecidableEq

/-- `GRID_SIZES` (tile.py lines 19-29). -/
def GRID_SIZES : List (String × (Nat × Nat)) :=
  [("2x2", (2, 2)), ("3x3", (3, 3)), ("4x4", (4, 4)), ("5x5", (5, 5)),
   ("6x6", (6, 6)), ("7x7", (7, 7)), ("8x8", (8, 8)), ("9x9", (9, 9)),
   ("10x10", (10, 10))]

/-- `TileConfig` (lines 32-49): one tile placement. The settings mapping is
opaque and passed to the child unchanged. -/
structure TileConfig where
  x : Nat
  y : Nat
  width : Nat
  height : Nat
  plugin_id : String
  plugin_settings : List (String × String)
  deriving DecidableEq

/-- One entry of the decoded `tilesConfig` JSON list, before
`TileConfig.from_dict` applies its defaults. -/
structure TileData where
  x : Option Nat
  y : Option Nat
  width : Option Nat
  height : Option Nat
  plugin_id : Option String
  plugin_settings : Option (List (String × String))
  deriving DecidableEq

/-- `TileConfig.from_dict` (lines 61-70). -/
def TileConfig.from_dict (data : TileData) : TileConfig :=
  { x := data.x.getD 0
    y := data.y.getD 0
    width := data.width.getD 1
    height := data.height.getD 1
    plugin_id := data.plugin_id.getD ""
    plugin_settings := data.plugin_settings.getD [] }

/-- The host `device_config` capability surface the tile plugin touches:
resolution, named config lookups with a default, and env lookups. -/
structure DeviceConfig where
  get_resolution : Nat × Nat
  get_config : String → Option String → Option String
  load_env_key : String → Option String

/-- `_create_tile_device_config` (lines 292-311): the synthesized per-tile
view reports the tile's pixel size and forwards the other lookups to the
original configuration unchanged. -/
def _create_tile_device_config (original_config : DeviceConfig)
    (tile_dimensions : Nat × Nat) : DeviceConfig :=
  { get_resolution := tile_dimensions
    get_config := fun key default => original_config.get_config key default
    load_env_key := fun key => original_config.load_env_key key }

/-- Outcome of resolving and rendering one tile's child plugin
(`get_plugin_instance` + `generate_image`, lines 217-241): `error` covers a
missing plugin (`Plugin not found`, raised and caught in the same function)
and any exception the resolution or rendering raised. -/
inductive ChildOutcome where
  | ok (img : ChildImage)
  | error (msg : String)
  deriving DecidableEq

/-- The host-supplied child renderer: plugin id, settings, per-tile device
configuration. -/
abbrev RenderChild := String → List (String × String) → DeviceConfig →
  ChildOutcome

/-- The host font metric `draw.textbbox`: width and height of a string's
bounding box. -/
abbrev MeasureText := String → Nat × Nat

/-- Value of one hex digit (used by `int(s, 16)`; the source only ever
parses digits of a well-formed `#rrggbb` color here). -/
def hexDigitVal (c : Char) : Nat :=
  if '0' ≤ c ∧ c ≤ '9' then c.toNat - 48
  else if 'a' ≤ c ∧ c ≤ 'f' then c.toNat - 87
  else if 'A' ≤ c ∧ c ≤ 'F' then c.toNat - 55
  else 0

/-- `int(h[i:i+2], 16)` for the two hex digits starting at `i`. -/
def hexPair (l : List Char) (i : Nat) : Nat :=
  match l.drop i with
  | a :: b :: _ => 16 * hexDigitVal a + hexDigitVal b
  | [a] => hexDigitVal a
  | [] => 0

/-- `_hex_to_rgb` (lines 156-165): `#rrggbb` to an RGB triple; anything of
another length falls back to white. -/
def _hex_to_rgb (hex_color : String) : Nat × Nat × Nat :=
  let h := hex_color.data.dropWhile (· == '#')
  if h.length = 6 then (hexPair h 0, hexPair h 2, hexPair h 4)
  else (255, 255, 255)

/-- `_draw_grid_borders` (lines 167-188): a 1-pixel line along every
internal column and row boundary. -/
def _draw_grid_borders (width height grid_cols grid_rows : Nat)
    (border_color : PilColor) : List DrawOp :=
  let tile_width := width / grid_cols
  let tile_height := height / grid_rows
  ((List.range' 1 (grid_cols - 1)).map fun col =>
    .line (col * tile_width, 0) (col * tile_width, height) border_color 1) ++
  ((List.range' 1 (grid_rows - 1)).map fun row =>
    .line (0, row * tile_height) (width, row * tile_height) border_color 1)

/-- The pixel rectangle of a tile placement, as computed at tile.py lines
200-204 and 258-261: `(x0, y0, x1, y1)` corner coordinates. -/
def tileRect (tile : TileConfig) (tile_width tile_height : Nat) :
    Nat × Nat × Nat × Nat :=
  (tile.x * tile_width, tile.y * tile_height,
   tile.x * tile_width + tile.width * tile_width,
   tile.y * tile_height + tile.height * tile_height)

/-- `_draw_error_tile` (lines 249-290): fill the tile's rectangle with the
error background and draw the centered `Error: <plugin_id>` label (`//` on
Python ints is floor division, matching `Int`'s `/` for the positive
divisor 2). -/
def _draw_error_tile (measure_text : MeasureText) (mode : String)
    (tile : TileConfig) (tile_width tile_height : Nat) : List DrawOp :=
  let tile_x := tile.x * tile_width
  let tile_y := tile.y * tile_height
  let tile_w := tile.width * tile_width
  let tile_h := tile.height * tile_height
  let error_text := "Error: " ++ tile.plugin_id
  let wh := measure_text error_text
  let text_x : Int := (tile_x : Int) + ((tile_w : Int) - (wh.1 : Int)) / 2
  let text_y : Int := (tile_y : Int) + ((tile_h : Int) - (wh.2 : Int)) / 2
  [.rect tile_x tile_y (tile_x + tile_w) (tile_y + tile_h)
    (if mode = "RGB" then .rgb 255 200 200 else .mono 0),
   .text text_x text_y wh.1 wh.2 error_text
    (if mode = "RGB" then .rgb 0 0 0 else .mono 1)]

/-- `plugin_img.resize((tile_w, tile_h), LANCZOS)` (lines 226-229) at this
level of detail: the same bitmap content at the target size. -/
def resizeTo (img : ChildImage) (w h : Nat) : ChildImage :=
  { img with width := w, height := h }

/-- `plugin_img.convert(mode)` (lines 232-237). -/
def convertMode (img : ChildImage) (mode : String) : ChildImage :=
  { img with mode := mode }

/-- `_render_tile` (lines 190-247): compute the tile's rectangle, synthesize
the per-tile device config, render the child, resize/mode-convert its
bitmap as needed and paste it; on failure, draw the error placeholder. -/
def _render_tile (render_child : RenderChild) (measure_text : MeasureText)
    (main_mode : String) (tile : TileConfig) (tile_width tile_height : Nat)
    (device_config : DeviceConfig) : List DrawOp :=
  let tile_x := tile.x * tile_width
  let tile_y := tile.y * tile_height
  let tile_w := tile.width * tile_width
  let tile_h := tile.height * tile_height
  let tile_device_config :=
    _create_tile_device_config device_config (tile_w, tile_h)
  match render_child tile.plugin_id tile.plugin_settings tile_device_config
    with
  | .ok plugin_img =>
    let img₁ :=
      if plugin_img.width = tile_w ∧ plugin_img.height = tile_h then
        plugin_img
      else resizeTo plugin_img tile_w tile_h
    let img₂ :=
      if main_mode = "1" ∧ img₁.mode ≠ "1" then convertMode img₁ "1"
      else if main_mode = "RGB" ∧ img₁.mode = "1" then convertMode img₁ "RGB"
      else img₁
    [.paste img₂ tile_x tile_y]
  | .error _ => _draw_error_tile measure_text main_mode tile tile_width
      tile_height

/-- The raw `tilesConfig` setting: a JSON string, or an already-decoded
list (`isinstance(tiles_config, str)` distinguishes them, lines 96-103). -/
inductive TilesConfigValue where
  | str (s : String)
  | parsed (l : List TileData)
  deriving DecidableEq

/-- The tile plugin settings dictionary as `generate_image` reads it. -/
structure TileSettings where
  gridSize : Option String
  showBorders : Option Bool
  borderColor : Option String
  backgroundColor : Option String
  tilesConfig : Option TilesConfigValue

/-- `TilePlugin.generate_image` (lines 85-154): decode the placement list
(an invalid JSON string degrades to the empty list), create the canvas,
draw optional grid borders, then composite every tile in order.
`json_loads` returns `none` exactly when `json.loads` raises
`JSONDecodeError`. -/
def generate_image (json_loads : String → Option (List TileData))
    (render_child : RenderChild) (measure_text : MeasureText)
    (settings : TileSettings) (device_config : DeviceConfig) :
    List DrawOp :=
  let grid_size := settings.gridSize.getD "4x4"
  let show_borders := settings.showBorders.getD true
  let border_color := settings.borderColor.getD "#cccccc"
  let background_color := settings.backgroundColor.getD "#ffffff"
  let tiles_data :=
    match settings.tilesConfig.getD (.str "[]") with
    | .str s => (json_loads s).getD []
    | .parsed l => l
  let tiles := tiles_data.map TileConfig.from_dict
  let dims := device_config.get_resolution
  let dims :=
    if device_config.get_config "orientation" none = some "vertical" then
      (dims.2, dims.1)
    else dims
  let width := dims.1
  let height := dims.2
  let gcr := (GRID_SIZES.lookup grid_size).getD (4, 4)
  let grid_cols := gcr.1
  let grid_rows := gcr.2
  let mode_and_border :=
    if device_config.get_config "color" none = some "bw" then
      ("1", PilColor.mono 0)
    else
      ("RGB",
        PilColor.rgb (_hex_to_rgb border_color).1
          (_hex_to_rgb border_color).2.1 (_hex_to_rgb border_color).2.2)
  let main_mode := mode_and_border.1
  let border_color_pil := mode_and_border.2
  let tile_width := width / grid_cols
  let tile_height := height / grid_rows
  [.newImage main_mode width height
    (if main_mode = "1" then .mono 1 else .named background_color)] ++
  (if show_borders then
    _draw_grid_borders width height grid_cols grid_rows border_color_pil
  else []) ++
  tiles.flatMap fun tile =>
    _render_tile render_child measure_text main_mode tile tile_width
      tile_height device_config

/-- Whether a pixel lies in the half-open rectangle with the given corner
coordinates. -/
def inRect (x0 y0 x1 y1 px py : Nat) : Prop :=
  x0 ≤ px ∧ px < x1 ∧ y0 ≤ py ∧ py < y1

instance (x0 y0 x1 y1 px py : Nat) :
    Decidable (inRect x0 y0 x1 y1 px py) := by
  unfold inRect
  infer_instance

/-- The same for a text box with (possibly negative) `Int` corner. -/
def inRectInt (x0 y0 : Int) (w h : Nat) (px py : Nat) : Prop :=
  x0 ≤ (px : Int) ∧ (px : Int) < x0 + w ∧ y0 ≤ (py : Int) ∧ (py : Int) < y0 + h

instance (x0 y0 : Int) (w h px py : Nat) :
    Decidable (inRectInt x0 y0 w h px py) := by
  unfold inRectInt
  infer_instance

/-- Whether a pixel lies on an axis-aligned 1-pixel line segment (endpoints
inclusive, as PIL draws them). -/
def onLine (p q : Nat × Nat) (px py : Nat) : Prop :=
  (p.1 = q.1 ∧ px = p.1 ∧ min p.2 q.2 ≤ py ∧ py ≤ max p.2 q.2) ∨
    (p.2 = q.2 ∧ py = p.2 ∧ min p.1 q.1 ≤ px ∧ px ≤ max p.1 q.1)

instance (p q : Nat × Nat) (px py : Nat) : Decidable (onLine p q px py) := by
  unfold onLine
  infer_instance

/-- Provenance of one pixel of the composited image. A `text` op claims its
whole bounding box (the region it may touch); everything else is exact. -/
inductive PixelVal where
  | uninitialized
  | solid (c : PilColor)
  | fromChild (img : ChildImage) (relx rely : Nat)
  | inkOf (content : String) (under : PilColor)
  deriving DecidableEq

/-- Effect of one drawing op on the pixel `(px, py)`. -/
def applyOp (px py : Nat) (v : PixelVal) : DrawOp → PixelVal
  | .newImage _ w h fill =>
    if inRect 0 0 w h px py then .solid fill else v
  | .line p q fill _ => if onLine p q px py then .solid fill else v
  | .paste img x y =>
    if inRect x y (x + img.width) (y + img.height) px py then
      .fromChild img (px - x) (py - y)
    else v
  | .rect x0 y0 x1 y1 fill =>
    if inRect x0 y0 x1 y1 px py then .solid fill else v
  | .text x y text_w text_h content fill =>
    if inRectInt x y text_w text_h px py then .inkOf content fill else v

/-- Pixel value after executing a list of drawing ops in order. -/
def renderOps (ops : List DrawOp) (px py : Nat) : PixelVal :=
  ops.foldl (fun v op => applyOp px py v op) .uninitialized

/-- A concrete child renderer for the witness theorems: the plugin `bad`
raises, everything else renders a 50x50 RGB bitmap. -/
def wRenderChild : RenderChild := fun plugin_id _ _ =>
  if plugin_id = "bad" then .error "boom" else .ok ⟨50, 50, "RGB", 0⟩

/-- A concrete text measure for the witness theorems. -/
def wMeasure : MeasureText := fun _ => (30, 10)

/-- A concrete 100x100 device configuration for the witness theorems. -/
def wDevice : DeviceConfig := ⟨(100, 100), fun _ d => d, fun _ => none⟩

/-- A concrete failing tile placement for the witness theorems. -/
def wTile : TileConfig := ⟨0, 0, 1, 1, "bad", []⟩

/-- A concrete always-failing JSON decoder for the witness theorems. -/
def wJson : String → Option (List TileData) := fun _ => none

/-- Concrete tile settings holding an undecodable `tilesConfig` string. -/
def wSettings : TileSettings := ⟨none, none, none, none, some (.str "not json")⟩

end TilePluginModel

namespace SchoolMenuPlugin

/-! ## Lemmas about the menu loops -/

theorem skipWeekend_school_day (rd : Nat) :
    _is_school_day (skipWeekend rd) = true := by
  simp only [skipWeekend, _is_school_day, weekday] at *
  split_ifs <;> simp_all <;> omega

theorem le_skipWeekend (rd : Nat) : rd ≤ skipWeekend rd := by
  simp only [skipWeekend]
  split_ifs <;> omega

theorem skipWeekend_le (rd : Nat) : skipWeekend rd ≤ rd + 2 := by
  simp only [skipWeekend]
  split_ifs <;> omega

theorem emptyMenuLoop_zero (d : Nat) : emptyMenuLoop 0 d = [] := by
  simp [emptyMenuLoop]

theorem emptyMenuLoop_succ (n : Nat) (d : Nat) :
    emptyMenuLoop (n + 1) d =
      (skipWeekend d, ["Menu not available"]) ::
        emptyMenuLoop n (skipWeekend d + 1) := by
  by_cases h : _is_school_day d = true
  · rw [emptyMenuLoop]
    simp [h, skipWeekend]
  · have h' : _is_school_day d = false := by simpa using h
    have hw : weekday d = 5 ∨ weekday d = 6 := by
      simp only [_is_school_day, weekday, decide_eq_false_iff_not, not_lt] at h'
      simp only [weekday]
      omega
    rcases hw with h5 | h6
    · have hd1 : _is_school_day (d + 1) = false := by
        simp only [_is_school_day, weekday] at *
        simp only [decide_eq_false_iff_not, not_lt]
        omega
      have hd2 : _is_school_day (d + 2) = true := by
        simp only [_is_school_day, weekday] at *
        simp only [decide_eq_true_eq]
        omega
      rw [emptyMenuLoop, if_neg (by simp [h']), emptyMenuLoop,
        if_neg (by simp [hd1]), emptyMenuLoop, if_pos hd2]
      simp only [skipWeekend, h', h5]
      norm_num
    · have hd1 : _is_school_day (d + 1) = true := by
        simp only [_is_school_day, weekday] at *
        simp only [decide_eq_true_eq]
        omega
      rw [emptyMenuLoop, if_neg (by simp [h']), emptyMenuLoop, if_pos hd1]
      simp only [skipWeekend, h', h6]
      norm_num

theorem convertLoop_zero (daily_items : List (Nat × List String))
    (mm my : Nat) (d : Nat) : convertLoop daily_items mm my 0 d = [] := by
  simp [convertLoop]

theorem convertLoop_succ (daily_items : List (Nat × List String))
    (mm my : Nat) (n : Nat) (d : Nat) :
    convertLoop daily_items mm my (n + 1) d =
      (skipWeekend d, menuDayValue daily_items mm my (skipWeekend d)) ::
        convertLoop daily_items mm my n (skipWeekend d + 1) := by
  by_cases h : _is_school_day d = true
  · rw [convertLoop]
    simp [h, skipWeekend]
  · have h' : _is_school_day d = false := by simpa using h
    have hw : weekday d = 5 ∨ weekday d = 6 := by
      simp only [_is_school_day, weekday, decide_eq_false_iff_not, not_lt] at h'
      simp only [weekday]
      omega
    rcases hw with h5 | h6
    · have hd1 : _is_school_day (d + 1) = false := by
        simp only [_is_school_day, weekday] at *
        simp only [decide_eq_false_iff_not, not_lt]
        omega
      have hd2 : _is_school_day (d + 2) = true := by
        simp only [_is_school_day, weekday] at *
        simp only [decide_eq_true_eq]
        omega
      rw [convertLoop, if_neg (by simp [h']), convertLoop,
        if_neg (by simp [hd1]), convertLoop, if_pos hd2]
      simp only [skipWeekend, h', h5]
      norm_num
    · have hd1 : _is_school_day (d + 1) = true := by
        simp only [_is_school_day, weekday] at *
        simp only [decide_eq_true_eq]
        omega
      rw [convertLoop, if_neg (by simp [h']), convertLoop, if_pos hd1]
      simp only [skipWeekend, h', h6]
      norm_num


theorem emptyMenuLoop_length (n : Nat) : ∀ d, (emptyMenuLoop n d).length = n := by
  induction n with
  | zero => intro d; simp [emptyMenuLoop_zero]
  | succ k ih => intro d; rw [emptyMenuLoop_succ]; simp [ih]

theorem emptyMenuLoop_key_lb (n : Nat) :
    ∀ d kv, kv ∈ emptyMenuLoop n d → d ≤ kv.1 := by
  induction n with
  | zero => intro d kv h; rw [emptyMenuLoop_zero] at h; cases h
  | succ k ih =>
    intro d kv h
    rw [emptyMenuLoop_succ] at h
    have hle := le_skipWeekend d
    rcases List.mem_cons.mp h with h1 | h2
    · subst h1; exact hle
    · have := ih (skipWeekend d + 1) kv h2
      omega

theorem emptyMenuLoop_keys_sorted (n : Nat) :
    ∀ d, ((emptyMenuLoop n d).map Prod.fst).Pairwise (· < ·) := by
  induction n with
  | zero => intro d; simp [emptyMenuLoop_zero]
  | succ k ih =>
    intro d
    rw [emptyMenuLoop_succ]
    simp only [List.map_cons]
    refine List.Pairwise.cons ?_ (ih _)
    intro b hb
    rcases List.mem_map.mp hb with ⟨kv, hkv, rfl⟩
    have := emptyMenuLoop_key_lb k (skipWeekend d + 1) kv hkv
    omega

theorem emptyMenuLoop_keys_school (n : Nat) :
    ∀ d kv, kv ∈ emptyMenuLoop n d → _is_school_day kv.1 = true := by
  induction n with
  | zero => intro d kv h; rw [emptyMenuLoop_zero] at h; cases h
  | succ k ih =>
    intro d kv h
    rw [emptyMenuLoop_succ] at h
    rcases List.mem_cons.mp h with h1 | h2
    · subst h1; exact skipWeekend_school_day d
    · exact ih _ kv h2

theorem emptyMenuLoop_values (n : Nat) :
    ∀ d kv, kv ∈ emptyMenuLoop n d → kv.2 = ["Menu not available"] := by
  induction n with
  | zero => intro d kv h; rw [emptyMenuLoop_zero] at h; cases h
  | succ k ih =>
    intro d kv h
    rw [emptyMenuLoop_succ] at h
    rcases List.mem_cons.mp h with h1 | h2
    · subst h1; rfl
    · exact ih _ kv h2

theorem convertLoop_keys (daily_items : List (Nat × List String))
    (mm my : Nat) (n : Nat) :
    ∀ d, (convertLoop daily_items mm my n d).map Prod.fst =
      (emptyMenuLoop n d).map Prod.fst := by
  induction n with
  | zero => intro d; rw [convertLoop_zero, emptyMenuLoop_zero]
  | succ k ih =>
    intro d
    rw [convertLoop_succ, emptyMenuLoop_succ]
    simp [ih]

theorem convertLoop_values (daily_items : List (Nat × List String))
    (mm my : Nat) (n : Nat) :
    ∀ d kv, kv ∈ convertLoop daily_items mm my n d →
      kv.2 = menuDayValue daily_items mm my kv.1 := by
  induction n with
  | zero => intro d kv h; rw [convertLoop_zero] at h; cases h
  | succ k ih =>
    intro d kv h
    rw [convertLoop_succ] at h
    rcases List.mem_cons.mp h with h1 | h2
    · subst h1; rfl
    · exact ih _ kv h2

/-- Every branch of `_fetch_menu_from_api` yields either the empty-menu
fallback or the converted window of a truthy-month/year payload. -/
theorem fetch_shape (today : Nat) (resp : ApiResponse) (n : Nat)
    (mid : String) (sc : Option String) :
    _fetch_menu_from_api today resp n mid sc =
        _get_empty_menu_for_days today n ∨
      ∃ p : MenuPayload, truthyNat p.month = true ∧ truthyNat p.year = true ∧
        _fetch_menu_from_api today resp n mid sc =
          _convert_to_date_format today (_group_items_by_day p.items)
            (p.month.getD 0) (p.year.getD 0) n := by
  unfold _fetch_menu_from_api
  split_ifs with h1
  · left; rfl
  · cases resp with
    | raised => left; rfl
    | ok status body =>
      simp only
      split_ifs with h2
      · left; rfl
      · cases body with
        | withErrors => left; rfl
        | noMenu => left; rfl
        | menu p =>
          unfold _parse_graphql_menu_data _extract_menu_dates
          by_cases hp : truthyNat p.month && truthyNat p.year
          · right
            refine ⟨p, ?_, ?_, ?_⟩
            · exact (Bool.and_eq_true .. ▸ hp).1
            · exact (Bool.and_eq_true .. ▸ hp).2
            · simp [hp]
          · left
            simp only [Bool.not_eq_true] at hp
            simp [hp]
            intro hcon
            simp [truthyNat] at hcon


theorem convertLoop_length (daily_items : List (Nat × List String))
    (mm my n d : Nat) : (convertLoop daily_items mm my n d).length = n := by
  have h := congrArg List.length (convertLoop_keys daily_items mm my n d)
  simp only [List.length_map] at h
  exact h.trans (emptyMenuLoop_length n d)

theorem convertLoop_keys_sorted (daily_items : List (Nat × List String))
    (mm my n d : Nat) :
    ((convertLoop daily_items mm my n d).map Prod.fst).Pairwise (· < ·) := by
  rw [convertLoop_keys]
  exact emptyMenuLoop_keys_sorted n d

theorem convertLoop_keys_school (daily_items : List (Nat × List String))
    (mm my n d : Nat) :
    ∀ kv ∈ convertLoop daily_items mm my n d, _is_school_day kv.1 = true := by
  intro kv h
  have h1 : kv.1 ∈ (convertLoop daily_items mm my n d).map Prod.fst :=
    List.mem_map.mpr ⟨kv, h, rfl⟩
  rw [convertLoop_keys] at h1
  rcases List.mem_map.mp h1 with ⟨kv', hkv', hfst⟩
  have := emptyMenuLoop_keys_school n d kv' hkv'
  rw [hfst] at this
  exact this

/-- For an in-range `num_days` every branch of `get_menu_for_days`
succeeds. -/
theorem get_menu_ok (today : Nat) (resp : ApiResponse) (num_days : Int)
    (menu_id site_code : Option String)
    (h : _is_valid_day_count num_days = true) :
    ∃ m, get_menu_for_days today resp num_days menu_id site_code = .ok m := by
  unfold get_menu_for_days
  rw [h]
  simp only [Bool.not_true, Bool.false_eq_true, if_false]
  by_cases hm : truthyStr menu_id = true
  · rw [if_pos hm]
    exact ⟨_, rfl⟩
  · rw [if_neg hm]
    exact ⟨_, rfl⟩

/-! ## Lemmas about the day-grouping dictionary -/

theorem dictFind_append_single (m : List (Nat × List String)) (k k' : Nat) :
    dictFind (m ++ [(k, [])]) k' =
      ((dictFind m k').or (if k = k' then some [] else none)) := by
  induction m with
  | nil => simp [dictFind]
  | cons kv rest ih =>
    cases kv with
    | mk k0 v0 =>
      simp only [List.cons_append, dictFind]
      by_cases hk : k0 = k'
      · rw [if_pos hk, if_pos hk]
        rfl
      · rw [if_neg hk, if_neg hk]
        exact ih

theorem dictFind_insertEmpty_self (m : List (Nat × List String)) (k : Nat) :
    dictFind (dictInsertEmpty m k) k = some ((dictFind m k).getD []) := by
  unfold dictInsertEmpty dictMem
  cases hm : dictFind m k with
  | some v => simp [hm]
  | none =>
    simp only [hm, Option.isSome_none, Bool.false_eq_true, if_false,
      Option.getD_none]
    rw [dictFind_append_single, hm, if_pos rfl]
    rfl

theorem dictFind_insertEmpty_ne (m : List (Nat × List String)) (k k' : Nat)
    (h : k ≠ k') :
    dictFind (dictInsertEmpty m k) k' = dictFind m k' := by
  unfold dictInsertEmpty
  split_ifs
  · rfl
  · rw [dictFind_append_single, if_neg h]
    cases dictFind m k' <;> rfl

theorem dictFind_appendAt_self (m : List (Nat × List String)) (k : Nat)
    (x : String) (v : List String) (hv : dictFind m k = some v) :
    dictFind (dictAppendAt m k x) k = some (v ++ [x]) := by
  induction m with
  | nil => cases hv
  | cons kv rest ih =>
    cases kv with
    | mk k0 v0 =>
      simp only [dictFind] at hv
      simp only [dictAppendAt]
      by_cases hk : k0 = k
      · rw [if_pos hk] at hv
        injection hv with hv
        rw [if_pos hk]
        simp only [dictFind, if_pos hk, hv]
      · rw [if_neg hk] at hv
        rw [if_neg hk]
        simp only [dictFind, if_neg hk]
        exact ih hv

theorem dictFind_appendAt_ne (m : List (Nat × List String)) (k k' : Nat)
    (x : String) (h : k ≠ k') :
    dictFind (dictAppendAt m k x) k' = dictFind m k' := by
  induction m with
  | nil => rfl
  | cons kv rest ih =>
    cases kv with
    | mk k0 v0 =>
      simp only [dictAppendAt]
      by_cases hk : k0 = k
      · rw [if_pos hk]
        subst hk
        simp only [dictFind, if_neg h]
      · rw [if_neg hk]
        simp only [dictFind]
        by_cases hk' : k0 = k'
        · rw [if_pos hk', if_pos hk']
        · rw [if_neg hk', if_neg hk']
          exact ih

/-- `groupStep` preserves "every stored per-day list is duplicate-free". -/
theorem groupStep_nodup (acc : List (Nat × List String)) (item : MenuItem)
    (h : ∀ k v, dictFind acc k = some v → v.Nodup) :
    ∀ k v, dictFind (groupStep acc item) k = some v → v.Nodup := by
  unfold groupStep
  cases item with
  | mk day name =>
    cases day with
    | none => exact h
    | some d =>
      cases name with
      | none => exact h
      | some pname =>
        simp only
        split_ifs with h1 h2
        · -- appended case
          intro k v hv
          have hins : ∀ k v, dictFind (dictInsertEmpty acc d) k = some v →
              v.Nodup := by
            intro k' v' hv'
            by_cases hk : d = k'
            · subst hk
              rw [dictFind_insertEmpty_self] at hv'
              injection hv' with hv'
              subst hv'
              cases hw : dictFind acc d with
              | none => simp [hw]
              | some w => simpa [hw] using h d w hw
            · rw [dictFind_insertEmpty_ne acc d k' hk] at hv'
              exact h k' v' hv'
          by_cases hk : d = k
          · subst hk
            have hself := dictFind_insertEmpty_self acc d
            rw [dictFind_appendAt_self _ _ _ _ hself] at hv
            injection hv with hv
            subst hv
            have hnodup := hins d _ hself
            have hnotmem : pyRstripColon (pyStrip pname) ∉
                (dictFind acc d).getD [] := by
              simp only [Bool.and_eq_true, Bool.not_eq_true'] at h2
              have := h2.2
              rw [dictFind_insertEmpty_self] at this
              simpa using this
            simp only [List.nodup_append, List.nodup_cons, List.not_mem_nil,
              not_false_iff, List.nodup_nil, and_true, true_and]
            refine ⟨hnodup, ?_⟩
            intro a ha hb
            simp only [List.mem_singleton] at hb
            subst hb
            exact hnotmem ha
          · rw [dictFind_appendAt_ne _ _ _ _ hk] at hv
            exact hins k v hv
        · -- guard failed: only the empty entry may have been created
          intro k v hv
          by_cases hk : d = k
          · subst hk
            rw [dictFind_insertEmpty_self] at hv
            injection hv with hv
            subst hv
            cases hw : dictFind acc d with
            | none => simp [hw]
            | some w => simpa [hw] using h d w hw
          · rw [dictFind_insertEmpty_ne acc d k hk] at hv
            exact h k v hv
        · exact h

/-- Every per-day list stored by `_group_items_by_day` is duplicate-free. -/
theorem group_items_nodup (items : List MenuItem) :
    ∀ k v, dictFind (_group_items_by_day items) k = some v → v.Nodup := by
  unfold _group_items_by_day
  have hgen : ∀ (l : List MenuItem) (acc : List (Nat × List String)),
      (∀ k v, dictFind acc k = some v → v.Nodup) →
      ∀ k v, dictFind (l.foldl groupStep acc) k = some v → v.Nodup := by
    intro l
    induction l with
    | nil => intro acc h; exact h
    | cons it rest ih =>
      intro acc h
      exact ih (groupStep acc it) (groupStep_nodup acc it h)
  exact hgen items [] (by intro k v hv; cases hv)

/-- Every item surviving `_filter_standard_items` fails every denylist
substring test, and filtering preserves freedom from duplicates. -/
theorem filter_standard_clean (l : List String) :
    (∀ x ∈ _filter_standard_items l, ∀ st ∈ STANDARD_ITEMS,
      strIn (pyLower st) (pyLower x) = false) ∧
      (l.Nodup → (_filter_standard_items l).Nodup) := by
  constructor
  · intro x hx st hst
    unfold _filter_standard_items at hx
    rcases List.mem_filter.mp hx with ⟨-, hcond⟩
    simp only [Bool.not_eq_true', List.any_eq_false] at hcond
    have := hcond st hst
    simpa using this
  · intro h
    exact h.filter _

/-- Whatever the lookup outcome, each day's stored value in
`_convert_to_date_format` is duplicate-free and denylist-free. -/
theorem menuDayValue_clean (daily_items : List (Nat × List String))
    (mm my rd : Nat)
    (hd : ∀ k v, dictFind daily_items k = some v → v.Nodup) :
    (menuDayValue daily_items mm my rd).Nodup ∧
      ∀ x ∈ menuDayValue daily_items mm my rd, ∀ st ∈ STANDARD_ITEMS,
        strIn (pyLower st) (pyLower x) = false := by
  have hph : (["No menu available"] : List String).Nodup ∧
      ∀ x ∈ (["No menu available"] : List String), ∀ st ∈ STANDARD_ITEMS,
        strIn (pyLower st) (pyLower x) = false := by
    constructor
    · decide
    · intro x hx st hst
      simp only [List.mem_singleton] at hx
      subst hx
      revert hst
      revert st
      decide
  unfold menuDayValue
  split_ifs with h1
  · cases hfind : dictFind daily_items (dateDay rd) with
    | none => simpa using hph
    | some items =>
      simp only
      split_ifs with h2
      · exact ⟨(filter_standard_clean items).2 (hd _ _ hfind),
          (filter_standard_clean items).1⟩
      · exact hph
  · exact hph

/-! ## Claim theorems: school menu -/

/-- C1: for every valid `num_days`, with or without a remote menu source and
whatever the API returned, `get_menu_for_days` succeeds with a mapping of
exactly `num_days` entries whose keys are distinct school days (Monday to
Friday, never Saturday or Sunday) in strictly increasing chronological
(insertion) order. -/
theorem spec_C1 (today : Nat) (resp : ApiResponse) (num_days : Int)
    (menu_id site_code : Option String)
    (h : _is_valid_day_count num_days = true) :
    ∃ m, get_menu_for_days today resp num_days menu_id site_code = .ok m ∧
      m.length = num_days.toNat ∧
      ((m.map Prod.fst).Pairwise (· < ·)) ∧
      ((m.map Prod.fst).Nodup) ∧
      (∀ kv ∈ m, _is_school_day kv.1 = true) := by
  have hempty : ∀ n : Nat,
      (_get_empty_menu_for_days today n).length = n ∧
      (((_get_empty_menu_for_days today n).map Prod.fst).Pairwise (· < ·)) ∧
      (∀ kv ∈ _get_empty_menu_for_days today n,
        _is_school_day kv.1 = true) := by
    intro n
    exact ⟨emptyMenuLoop_length n today, emptyMenuLoop_keys_sorted n today,
      emptyMenuLoop_keys_school n today⟩
  unfold get_menu_for_days
  rw [h]
  simp only [Bool.not_true, Bool.false_eq_true, if_false]
  by_cases hm : truthyStr menu_id = true
  · rw [if_pos hm]
    refine ⟨_, rfl, ?_⟩
    rcases fetch_shape today resp num_days.toNat (menu_id.getD "") site_code
      with hsh | ⟨p, _, _, hsh⟩
    · rw [hsh]
      rcases hempty num_days.toNat with ⟨h1, h2, h3⟩
      exact ⟨h1, h2, h2.imp Nat.ne_of_lt, h3⟩
    · rw [hsh]
      unfold _convert_to_date_format
      refine ⟨convertLoop_length _ _ _ _ _, convertLoop_keys_sorted _ _ _ _ _,
        (convertLoop_keys_sorted _ _ _ _ _).imp Nat.ne_of_lt,
        convertLoop_keys_school _ _ _ _ _⟩
  · rw [if_neg hm]
    refine ⟨_, rfl, ?_⟩
    rcases hempty num_days.toNat with ⟨h1, h2, h3⟩
    exact ⟨h1, h2, h2.imp Nat.ne_of_lt, h3⟩

/-- C1 witness at a concrete input (2025-09-01, three days, no source). -/
theorem spec_C1_witness :
    _is_valid_day_count 3 = true ∧
      ∃ m, get_menu_for_days 739495 .raised 3 none none = .ok m ∧
        m.length = (3 : Int).toNat ∧
        ((m.map Prod.fst).Pairwise (· < ·)) ∧
        ((m.map Prod.fst).Nodup) ∧
        (∀ kv ∈ m, _is_school_day kv.1 = true) :=
  ⟨by decide, spec_C1 739495 .raised 3 none none (by decide)⟩

/-- A failing fetch returns the empty-menu fallback, whatever the cause. -/
theorem fetch_failed_empty (today n : Nat) (mid : String)
    (sc : Option String) (resp : ApiResponse) (hf : fetchFailed resp = true) :
    _fetch_menu_from_api today resp n mid sc =
      _get_empty_menu_for_days today n := by
  unfold _fetch_menu_from_api
  by_cases hmid : mid = ""
  · rw [if_pos hmid]
  · rw [if_neg hmid]
    cases resp with
    | raised => rfl
    | ok status body =>
      by_cases hst : (status != 200) = true
      · simp only [if_pos hst]
      · cases body with
        | withErrors => simp [hst]
        | noMenu => simp [hst]
        | menu p =>
          simp only [fetchFailed, Bool.or_eq_true, hst, false_or,
            Bool.not_eq_true'] at hf
          simp only [hst, Bool.false_eq_true, if_false]
          unfold _parse_graphql_menu_data _extract_menu_dates
          have hab : (truthyNat p.month && truthyNat p.year) = false := by
            rcases hf with h1 | h2
            · cases h1
            · exact h2
          rw [hab]
          simp [truthyNat]

theorem spec_C2 (today : Nat) (resp : ApiResponse) (num_days : Int)
    (menu_id site_code : Option String)
    (hv : _is_valid_day_count num_days = true)
    (hm : truthyStr menu_id = true)
    (hf : fetchFailed resp = true) :
    get_menu_for_days today resp num_days menu_id site_code =
        .ok (_get_empty_menu_for_days today num_days.toNat) ∧
      (_get_empty_menu_for_days today num_days.toNat).length =
        num_days.toNat ∧
      ∀ kv ∈ _get_empty_menu_for_days today num_days.toNat,
        kv.2 = ["Menu not available"] := by
  refine ⟨?_, emptyMenuLoop_length _ _, emptyMenuLoop_values _ _⟩
  unfold get_menu_for_days
  rw [hv]
  simp only [Bool.not_true, Bool.false_eq_true, if_false, hm, if_pos]
  rw [fetch_failed_empty today num_days.toNat (menu_id.getD "") site_code
    resp hf]

/-- C2 witness at a concrete input (a raised transport exception). -/
theorem spec_C2_witness :
    _is_valid_day_count 2 = true ∧ truthyStr (some "menu1") = true ∧
      fetchFailed .raised = true ∧
      (get_menu_for_days 739495 .raised 2 (some "menu1") none =
          .ok (_get_empty_menu_for_days 739495 (2 : Int).toNat) ∧
        (_get_empty_menu_for_days 739495 (2 : Int).toNat).length =
          (2 : Int).toNat ∧
        ∀ kv ∈ _get_empty_menu_for_days 739495 (2 : Int).toNat,
          kv.2 = ["Menu not available"]) :=
  ⟨by decide, by decide, rfl,
    spec_C2 739495 .raised 2 (some "menu1") none (by decide) (by decide) rfl⟩

/-- C6: with a truthy menu id and a well-formed 200 payload, every requested
school day whose date lies outside the payload's stated month/year gets
exactly the single "No menu available" placeholder, and so does every
requested day with no matching per-day items in the payload. -/
theorem spec_C6 (today num_days : Nat) (mid : String) (sc : Option String)
    (p : MenuPayload) (hmid : mid ≠ "")
    (hm : truthyNat p.month = true) (hy : truthyNat p.year = true) :
    ∀ kv ∈ _fetch_menu_from_api today (.ok 200 (.menu p)) num_days mid sc,
      (_is_date_in_menu_range kv.1 (p.month.getD 0) (p.year.getD 0) = false →
          kv.2 = ["No menu available"]) ∧
        (dictFind (_group_items_by_day p.items) (dateDay kv.1) = none →
          kv.2 = ["No menu available"]) := by
  intro kv hkv
  unfold _fetch_menu_from_api at hkv
  rw [if_neg (by simpa using hmid)] at hkv
  simp only [bne_self_eq_false, Bool.false_eq_true, if_false] at hkv
  unfold _parse_graphql_menu_data _extract_menu_dates at hkv
  simp only [hm, hy, Bool.and_self, if_pos, Bool.not_true,
    Bool.false_eq_true, if_false] at hkv
  unfold _convert_to_date_format at hkv
  have hval := convertLoop_values _ _ _ _ _ kv hkv
  constructor
  · intro hrange
    rw [hval]
    unfold menuDayValue
    rw [hrange]
    simp
  · intro hnone
    rw [hval]
    unfold menuDayValue
    rw [hnone]
    split <;> rfl

/-- C6 witness: a payload stating October 2025 while the requested window
starts 2025-09-01, and a day-of-month with no items. -/
theorem spec_C6_witness :
    ("menu1" : String) ≠ "" ∧
      truthyNat (some 10) = true ∧ truthyNat (some 2025) = true ∧
      ∀ kv ∈ _fetch_menu_from_api 739495 (.ok 200 (.menu ⟨some 10, some 2025, []⟩))
          2 "menu1" none,
        (_is_date_in_menu_range kv.1 ((some 10).getD 0) ((some 2025).getD 0)
            = false → kv.2 = ["No menu available"]) ∧
          (dictFind (_group_items_by_day ([] : List MenuItem)) (dateDay kv.1)
            = none → kv.2 = ["No menu available"]) :=
  ⟨by decide, rfl, by decide,
    spec_C6 739495 2 "menu1" none ⟨some 10, some 2025, []⟩ (by decide) rfl
      (by decide)⟩

/-- C7: `get_menu_for_days` raises exactly when `num_days` is out of range;
for an in-range `num_days`, no network or parsing outcome makes it raise. -/
theorem spec_C7 (today : Nat) (resp : ApiResponse) (num_days : Int)
    (menu_id site_code : Option String) :
    (∃ e, get_menu_for_days today resp num_days menu_id site_code = .error e)
      ↔ _is_valid_day_count num_days = false := by
  unfold get_menu_for_days
  by_cases hv : _is_valid_day_count num_days = true
  · rw [hv]
    simp only [Bool.not_true, Bool.false_eq_true, if_false]
    constructor
    · intro ⟨e, he⟩
      split_ifs at he
    · intro hfalse
      cases hfalse
  · have hv' : _is_valid_day_count num_days = false := by
      simpa using hv
    rw [hv']
    simp

/-- C9: `generate_image`'s settings parser silently clamps an out-of-range
`numDays` to 1, and the parsed day count is always in range, so the
`ValueError` branch of `get_menu_for_days` is unreachable from
`generate_image` (the call always succeeds). -/
theorem spec_C9 (today : Nat) (resp : ApiResponse) (s s' : SMSettings)
    (hn : _is_valid_day_count (s.numDays.getD 1) = false) :
    (_parse_settings s).num_days = 1 ∧
      _is_valid_day_count (_parse_settings s').num_days = true ∧
      ∃ m, generate_image_menu_data today resp s' = .ok m := by
  have hvalid : ∀ t : SMSettings,
      _is_valid_day_count (_parse_settings t).num_days = true := by
    intro t
    cases hv : _is_valid_day_count (t.numDays.getD 1) with
    | true =>
      simp only [_parse_settings, hv, Bool.not_true, Bool.false_eq_true,
        if_false]
    | false =>
      simp only [_parse_settings, hv, Bool.not_false, if_pos]
      decide
  refine ⟨?_, hvalid s', ?_⟩
  · unfold _parse_settings
    simp [hn]
  · unfold generate_image_menu_data
    exact get_menu_ok today resp (_parse_settings s').num_days
      (some (_parse_settings s').menu_id) (_parse_settings s').site_code
      (hvalid s')

/-- C9 witness: `numDays = 99` is clamped to 1 and the fetch succeeds. -/
theorem spec_C9_witness :
    _is_valid_day_count ((some (99 : Int)).getD 1) = false ∧
      (_parse_settings ⟨none, none, some 99, none, none, none⟩).num_days = 1 ∧
      _is_valid_day_count
        (_parse_settings ⟨some "m", none, some 99, none, none, none⟩).num_days
          = true ∧
      ∃ m, generate_image_menu_data 739495 .raised
        ⟨some "m", none, some 99, none, none, none⟩ = .ok m := by
  refine ⟨by decide, ?_⟩
  have h := spec_C9 739495 .raised ⟨none, none, some 99, none, none, none⟩
    ⟨some "m", none, some 99, none, none, none⟩ (by decide)
  exact ⟨h.1, h.2.1, h.2.2⟩

/-- C4: for a well-formed 200 payload whose stated month/year cover today
(a school day) and which has items for today, the returned list for today
contains no item case-insensitively containing a standard-accompaniment
denylist entry as a substring, and contains no duplicate item names. -/
theorem spec_C4 (today num_days : Nat) (mid : String) (sc : Option String)
    (p : MenuPayload) (its : List String)
    (hmid : mid ≠ "") (hsch : _is_school_day today = true)
    (hnd : 0 < num_days)
    (hm : p.month = some (dateMonth today)) (hm0 : dateMonth today ≠ 0)
    (hy : p.year = some (dateYear today)) (hy0 : dateYear today ≠ 0)
    (_hits : dictFind (_group_items_by_day p.items) (dateDay today) =
      some its) :
    ∃ l, (today, l) ∈
        _fetch_menu_from_api today (.ok 200 (.menu p)) num_days mid sc ∧
      l.Nodup ∧
      ∀ x ∈ l, ∀ st ∈ STANDARD_ITEMS,
        strIn (pyLower st) (pyLower x) = false := by
  obtain ⟨k, rfl⟩ : ∃ k, num_days = k + 1 := ⟨num_days - 1, by omega⟩
  unfold _fetch_menu_from_api
  rw [if_neg hmid]
  simp only [bne_self_eq_false, Bool.false_eq_true, if_false]
  unfold _parse_graphql_menu_data _extract_menu_dates
  rw [hm, hy]
  have htm : truthyNat (some (dateMonth today)) = true := by
    simp [truthyNat, hm0]
  have hty : truthyNat (some (dateYear today)) = true := by
    simp [truthyNat, hy0]
  rw [htm, hty]
  simp only [Bool.and_self, if_pos, Bool.not_true, Bool.false_eq_true,
    if_false]
  rw [htm, hty]
  simp only [Bool.and_self, Bool.not_true, Bool.false_eq_true, if_false,
    Option.getD_some]
  unfold _convert_to_date_format
  rw [convertLoop_succ]
  have hskip : skipWeekend today = today := by
    unfold skipWeekend
    rw [if_pos hsch]
  rw [hskip]
  refine ⟨_, List.mem_cons_self _ _, ?_⟩
  have hclean := menuDayValue_clean (_group_items_by_day p.items)
    (dateMonth today) (dateYear today) today (group_items_nodup p.items)
  exact ⟨hclean.1, hclean.2⟩

/-- C4 witness: a one-item September 2025 payload for 2025-09-01. -/
theorem spec_C4_witness :
    ("menu1" : String) ≠ "" ∧ _is_school_day 739495 = true ∧ (0 : Nat) < 1 ∧
      (MenuPayload.mk (some 9) (some 2025)
          [⟨some 1, some "Pizza"⟩]).month = some (dateMonth 739495) ∧
      dateMonth 739495 ≠ 0 ∧
      (MenuPayload.mk (some 9) (some 2025)
          [⟨some 1, some "Pizza"⟩]).year = some (dateYear 739495) ∧
      dateYear 739495 ≠ 0 ∧
      dictFind
        (_group_items_by_day
          (MenuPayload.mk (some 9) (some 2025) [⟨some 1, some "Pizza"⟩]).items)
        (dateDay 739495) = some ["Pizza"] ∧
      ∃ l, (739495, l) ∈
          _fetch_menu_from_api 739495
            (.ok 200 (.menu
              (MenuPayload.mk (some 9) (some 2025) [⟨some 1, some "Pizza"⟩])))
            1 "menu1" none ∧
        l.Nodup ∧
        ∀ x ∈ l, ∀ st ∈ STANDARD_ITEMS,
          strIn (pyLower st) (pyLower x) = false :=
  ⟨by decide, by decide, by decide, by decide, by decide, by decide,
    by decide, by decide,
    spec_C4 739495 1 "menu1" none
      (MenuPayload.mk (some 9) (some 2025) [⟨some 1, some "Pizza"⟩])
      ["Pizza"] (by decide) (by decide) (by decide) (by decide) (by decide)
      (by decide) (by decide) (by decide)⟩

end SchoolMenuPlugin

/-! ## Claim theorems: tile compositor -/

namespace TilePluginModel

theorem renderOps_append (a b : List DrawOp) (px py : Nat) :
    renderOps (a ++ b) px py =
      b.foldl (fun v op => applyOp px py v op) (renderOps a px py) := by
  unfold renderOps
  rw [List.foldl_append]

theorem spec_C3 (render_child : RenderChild) (measure_text : MeasureText)
    (main_mode : String) (device_config : DeviceConfig) (tile : TileConfig)
    (tile_width tile_height : Nat) (e : String) (pre post : List DrawOp)
    (ts1 ts2 : List TileConfig)
    (herr : render_child tile.plugin_id tile.plugin_settings
      (_create_tile_device_config device_config
        (tile.width * tile_width, tile.height * tile_height)) = .error e)
    (hw : (measure_text ("Error: " ++ tile.plugin_id)).1 ≤
      tile.width * tile_width)
    (hh : (measure_text ("Error: " ++ tile.plugin_id)).2 ≤
      tile.height * tile_height) :
    _render_tile render_child measure_text main_mode tile tile_width
        tile_height device_config =
      [.rect (tile.x * tile_width) (tile.y * tile_height)
        (tile.x * tile_width + tile.width * tile_width)
        (tile.y * tile_height + tile.height * tile_height)
        (if main_mode = "RGB" then .rgb 255 200 200 else .mono 0),
       .text
        ((tile.x * tile_width : Int) +
          ((tile.width * tile_width : Int) -
            ((measure_text ("Error: " ++ tile.plugin_id)).1 : Int)) / 2)
        ((tile.y * tile_height : Int) +
          ((tile.height * tile_height : Int) -
            ((measure_text ("Error: " ++ tile.plugin_id)).2 : Int)) / 2)
        (measure_text ("Error: " ++ tile.plugin_id)).1
        (measure_text ("Error: " ++ tile.plugin_id)).2
        ("Error: " ++ tile.plugin_id)
        (if main_mode = "RGB" then .rgb 0 0 0 else .mono 1)] ∧
    (∀ px py, ¬ inRect (tile.x * tile_width) (tile.y * tile_height)
        (tile.x * tile_width + tile.width * tile_width)
        (tile.y * tile_height + tile.height * tile_height) px py →
      renderOps (pre ++ _render_tile render_child measure_text main_mode
          tile tile_width tile_height device_config ++ post) px py =
        renderOps (pre ++ post) px py) ∧
    ((ts1 ++ tile :: ts2).flatMap (fun t =>
        _render_tile render_child measure_text main_mode t tile_width
          tile_height device_config) =
      ts1.flatMap (fun t => _render_tile render_child measure_text main_mode
          t tile_width tile_height device_config) ++
        _render_tile render_child measure_text main_mode tile tile_width
          tile_height device_config ++
        ts2.flatMap (fun t => _render_tile render_child measure_text
          main_mode t tile_width tile_height device_config)) := by
  have hops : _render_tile render_child measure_text main_mode tile
      tile_width tile_height device_config =
      _draw_error_tile measure_text main_mode tile tile_width tile_height :=
    by
    unfold _render_tile
    simp only [herr]
  refine ⟨?_, ?_, ?_⟩
  · rw [hops]
    rfl
  · intro px py houtside
    rw [hops]
    rw [List.append_assoc, renderOps_append, renderOps_append,
      List.foldl_append]
    congr 1
    show (_draw_error_tile measure_text main_mode tile tile_width
      tile_height).foldl (fun v op => applyOp px py v op)
        (renderOps pre px py) = renderOps pre px py
    unfold _draw_error_tile
    simp only [List.foldl_cons, List.foldl_nil]
    have h1 : applyOp px py (renderOps pre px py)
        (.rect (tile.x * tile_width) (tile.y * tile_height)
          (tile.x * tile_width + tile.width * tile_width)
          (tile.y * tile_height + tile.height * tile_height)
          (if main_mode = "RGB" then .rgb 255 200 200 else .mono 0)) =
        renderOps pre px py := by
      simp only [applyOp]
      rw [if_neg houtside]
    rw [h1]
    simp only [applyOp]
    rw [if_neg ?_]
    intro hin
    apply houtside
    unfold inRectInt at hin
    unfold inRect
    omega
  · simp [List.flatMap_append, List.flatMap_cons, List.append_assoc]

/-- C5: a 2x2 grid on a 100x100 canvas: the cell size is the floor division
100 / 2 = 50, the four unit placements map exactly to the stated pixel
rectangles, and the grid never extends past the canvas (remainder pixels
stay unused margin on the far edge, never redistributed). -/
theorem spec_C5 :
    GRID_SIZES.lookup "2x2" = some (2, 2) ∧
      (100 / 2 = 50) ∧
      tileRect ⟨0, 0, 1, 1, "a", []⟩ 50 50 = (0, 0, 50, 50) ∧
      tileRect ⟨1, 0, 1, 1, "b", []⟩ 50 50 = (50, 0, 100, 50) ∧
      tileRect ⟨0, 1, 1, 1, "c", []⟩ 50 50 = (0, 50, 50, 100) ∧
      tileRect ⟨1, 1, 1, 1, "d", []⟩ 50 50 = (50, 50, 100, 100) ∧
      ∀ w cols : Nat, cols * (w / cols) ≤ w := by
  refine ⟨by decide, by decide, by decide, by decide, by decide, by decide,
    ?_⟩
  intro w cols
  rw [Nat.mul_comm]
  exact Nat.div_mul_le_self w cols

/-- C8: the synthesized per-tile device configuration reports the tile's
own pixel dimensions through `get_resolution` and forwards `get_config`
(for every key and default) and `load_env_key` to the original
configuration unchanged. -/
theorem spec_C8 (original_config : DeviceConfig)
    (tile_dimensions : Nat × Nat) :
    (_create_tile_device_config original_config
        tile_dimensions).get_resolution = tile_dimensions ∧
      (∀ key default,
        (_create_tile_device_config original_config
            tile_dimensions).get_config key default =
          original_config.get_config key default) ∧
      ∀ key,
        (_create_tile_device_config original_config
            tile_dimensions).load_env_key key =
          original_config.load_env_key key :=
  ⟨rfl, fun _ _ => rfl, fun _ => rfl⟩

/-- Every op drawn by `_draw_grid_borders` is a 1-pixel line. -/
theorem grid_borders_ops (width height gc gr : Nat) (c : PilColor) :
    ∀ op ∈ _draw_grid_borders width height gc gr c,
      ∃ p q f w, op = .line p q f w := by
  intro op hop
  unfold _draw_grid_borders at hop
  rw [List.mem_append] at hop
  rcases hop with h | h <;> rcases List.mem_map.mp h with ⟨a, _, rfl⟩ <;>
    exact ⟨_, _, _, _, rfl⟩

/-- C10: a `tilesConfig` string that fails JSON decoding yields the same
image as an empty placement list: just the background plus (optional) grid
borders, with no tile paste and no error-placeholder op. -/
theorem spec_C10 (json_loads : String → Option (List TileData))
    (render_child : RenderChild) (measure_text : MeasureText)
    (settings : TileSettings) (device_config : DeviceConfig) (s : String)
    (hbad : json_loads s = none)
    (hset : settings.tilesConfig = some (.str s)) :
    generate_image json_loads render_child measure_text settings
        device_config =
      generate_image json_loads render_child measure_text
        { settings with tilesConfig := some (.parsed []) } device_config ∧
      ∀ op ∈ generate_image json_loads render_child measure_text settings
          device_config,
        (match op with
          | .newImage _ _ _ _ => True
          | .line _ _ _ _ => True
          | _ => False) := by
  have hstruct : generate_image json_loads render_child measure_text
      settings device_config =
      generate_image json_loads render_child measure_text
        { settings with tilesConfig := some (.parsed []) } device_config :=
    by
    unfold generate_image
    rw [hset]
    simp [hbad]
  refine ⟨hstruct, ?_⟩
  rw [hstruct]
  intro op hop
  unfold generate_image at hop
  simp only [Option.getD_some, List.map_nil, List.flatMap_nil,
    List.append_nil, List.mem_append, List.mem_singleton] at hop
  rcases hop with h1 | h2
  · subst h1
    trivial
  · by_cases hb : (settings.showBorders.getD true) = true
    · rw [if_pos hb] at h2
      rcases grid_borders_ops _ _ _ _ _ op h2 with ⟨p, q, f, w, rfl⟩
      trivial
    · rw [if_neg hb] at h2
      cases h2

/-- C3 witness: the concrete failing tile `wTile` in a 2x2 grid cell of a
100x100 canvas, its ops being exactly the error fill and centered label. -/
theorem spec_C3_witness :
    (wRenderChild wTile.plugin_id wTile.plugin_settings
        (_create_tile_device_config wDevice
          (wTile.width * 50, wTile.height * 50)) = .error "boom") ∧
      (wMeasure ("Error: " ++ wTile.plugin_id)).1 ≤ wTile.width * 50 ∧
      (wMeasure ("Error: " ++ wTile.plugin_id)).2 ≤ wTile.height * 50 ∧
      _render_tile wRenderChild wMeasure "RGB" wTile 50 50 wDevice =
        [.rect (wTile.x * 50) (wTile.y * 50)
          (wTile.x * 50 + wTile.width * 50)
          (wTile.y * 50 + wTile.height * 50)
          (if ("RGB" : String) = "RGB" then .rgb 255 200 200 else .mono 0),
         .text
          ((wTile.x * 50 : Int) + ((wTile.width * 50 : Int) -
            ((wMeasure ("Error: " ++ wTile.plugin_id)).1 : Int)) / 2)
          ((wTile.y * 50 : Int) + ((wTile.height * 50 : Int) -
            ((wMeasure ("Error: " ++ wTile.plugin_id)).2 : Int)) / 2)
          (wMeasure ("Error: " ++ wTile.plugin_id)).1
          (wMeasure ("Error: " ++ wTile.plugin_id)).2
          ("Error: " ++ wTile.plugin_id)
          (if ("RGB" : String) = "RGB" then .rgb 0 0 0 else .mono 1)] :=
  ⟨rfl, by decide, by decide,
    (spec_C3 wRenderChild wMeasure "RGB" wDevice wTile 50 50 "boom" [] []
      [] [] rfl (by decide) (by decide)).1⟩

/-- C10 witness: the concrete undecodable string "not json". -/
theorem spec_C10_witness :
    wJson "not json" = none ∧
      wSettings.tilesConfig = some (.str "not json") ∧
      generate_image wJson wRenderChild wMeasure wSettings wDevice =
        generate_image wJson wRenderChild wMeasure
          { wSettings with tilesConfig := some (.parsed []) } wDevice :=
  ⟨rfl, rfl,
    (spec_C10 wJson wRenderChild wMeasure wSettings wDevice "not json" rfl
      rfl).1⟩


end TilePluginModel
